import Mathlib

/-!
Verification of the frame-management core (src/frame.c): the geometry/resize
engine (adjust_frame_size, keep_ratio, frame_size_history, make_frame,
frame_windows_min_size, frame_inhibit_resize), the lifecycle/registry
operations (delete_frame, other_frames, root_frame) and the parameter store
(store_frame_param).  Machine integers are modelled as Int (values stay far
from 32-bit overflow in all verified scenarios), C `int` division as Int.tdiv
(truncation toward zero), and the C doubles of keep_ratio as exact rationals.
-/

namespace FrameSpec

/-- Frame parameter symbols inspected by the geometry engine
(`parameter` argument of adjust_frame_size / frame_inhibit_resize). -/
inductive FParam where
  | pnil
  | keepRatioQ
  | terminalFrameQ
  | menuBarLinesQ
  | fontQ
  | extra (k : Nat)
deriving DecidableEq, Repr

/-- Value of the `frame-inhibit-implied-resize` Lisp variable, as consulted by
frame_inhibit_resize (frame.c:186): the symbol `force`, `t`, a list of
parameter symbols, or nil/anything else. -/
inductive InhibitPolicy where
  | force
  | always
  | params (l : List FParam)
  | off
deriving DecidableEq, Repr

/-- Value of a frame's `fullscreen` parameter (when non-nil). -/
inductive Fullscreen where
  | fullwidth
  | fullheight
  | fullboth
  | maximized
deriving DecidableEq, Repr

/-- The keep-ratio Lisp value is either an atom or a cons of two atoms
(size-axis selector . position-axis selector); see keep_ratio
(frame.c:516). -/
inductive KRAtom where
  | knil
  | kt
  | kwidthOnly
  | kheightOnly
  | kleftOnly
  | ktopOnly
deriving DecidableEq, Repr

/-- A frame's `keep-ratio` parameter value. -/
inductive KRVal where
  | atom (a : KRAtom)
  | kcons (car cdr : KRAtom)
deriving DecidableEq, Repr

/-- CONSP for keep-ratio values. -/
def KRVal.consp : KRVal → Bool
  | .atom _ => false
  | .kcons _ _ => true

/-- Fcar of a keep-ratio value (only consulted under a CONSP guard). -/
def KRVal.car : KRVal → KRAtom
  | .atom _ => .knil
  | .kcons a _ => a

/-- Fcdr of a keep-ratio value (only consulted under a CONSP guard). -/
def KRVal.cdr : KRVal → KRAtom
  | .atom _ => .knil
  | .kcons _ d => d

/-- The per-frame state read and written by the geometry engine.  The
geometry fields mirror struct frame; the conversion-relevant decoration
fields (internal border, fringes, scroll-bar areas, menu/tab bar heights)
are modelled from the spec's data model since frame.h is not among the
sources.  The root/minibuffer sub-window pixel metrics stand for the
external window tree, which adjust_frame_size reads (frame.c:752-758)
and resizes through resize_frame_windows. -/
structure GFrame where
  cols : Int
  lines : Int
  textWidth : Int
  textHeight : Int
  pixelWidth : Int
  pixelHeight : Int
  totalCols : Int
  totalLines : Int
  columnWidth : Int
  lineHeight : Int
  internalBorderWidth : Int
  totalFringeWidth : Int
  scrollBarAreaWidth : Int
  scrollBarAreaHeight : Int
  menuBarHeight : Int
  tabBarHeight : Int
  menuBarLines : Int
  tabBarLines : Int
  wantsModeline : Bool
  hasMinibuf : Bool
  minibufOnly : Bool
  windowP : Bool
  termcapP : Bool
  msdosP : Bool
  canSetWindowSize : Bool
  afterMakeFrame : Bool
  newWidth : Int
  newHeight : Int
  newSizeP : Bool
  resizedP : Bool
  garbaged : Bool
  rootWindowPixelTop : Int
  rootWindowPixelWidth : Int
  rootWindowPixelHeight : Int
  minibufWindowPixelHeight : Int
  leftPos : Int
  topPos : Int
  paramMinWidth : Option Int
  paramMinHeight : Option Int
  keepRatioP : KRVal
  fullscreenParam : Option Fullscreen

/-- External collaborators of the geometry engine: the global
`frame-inhibit-implied-resize` policy, the elisp `frame-windows-min-size`
function (window-layout query, frame.c:468 calls out to window.el) as an
oracle of (horizontal, ignore=safe, pixelwise), and the presence of the
backend resize/offset hooks. -/
structure GEnv where
  frameInhibitImpliedResize : InhibitPolicy
  windowsMinSizeLisp : Bool → Bool → Bool → Int
  hasSetWindowSizeHook : Bool
  hasSetFrameOffsetHook : Bool

/-- FRAME_MARGIN_HEIGHT: pixel height reserved for menu and tab bars.
Modelled from the spec (frame.h is not among the sources): "margin height
(menu/tab bar)". -/
def marginHeight (f : GFrame) : Int := f.menuBarHeight + f.tabBarHeight

/-- FRAME_TOP_MARGIN_HEIGHT: same bars, as the top margin of the root
window.  Modelled from the spec. -/
def topMarginHeight (f : GFrame) : Int := f.menuBarHeight + f.tabBarHeight

/-- FRAME_TOP_MARGIN: menu plus tab bar line counts.  Modelled from the
spec. -/
def topMargin (f : GFrame) : Int := f.menuBarLines + f.tabBarLines

/-- FRAME_TEXT_TO_PIXEL_WIDTH: text size plus horizontal chrome
(scroll-bar area, fringes, twice the internal border).  Modelled from the
spec glossary: text size = native size minus chrome. -/
def textToPixelWidth (f : GFrame) (w : Int) : Int :=
  w + f.scrollBarAreaWidth + f.totalFringeWidth + 2 * f.internalBorderWidth

/-- FRAME_PIXEL_TO_TEXT_WIDTH: inverse of textToPixelWidth.  Modelled from
the spec. -/
def pixelToTextWidth (f : GFrame) (w : Int) : Int :=
  w - f.scrollBarAreaWidth - f.totalFringeWidth - 2 * f.internalBorderWidth

/-- FRAME_TEXT_TO_PIXEL_HEIGHT: text size plus vertical chrome (menu/tab
bar margin, horizontal scroll-bar area, twice the internal border).
Modelled from the spec. -/
def textToPixelHeight (f : GFrame) (h : Int) : Int :=
  h + marginHeight f + f.scrollBarAreaHeight + 2 * f.internalBorderWidth

/-- FRAME_PIXEL_TO_TEXT_HEIGHT: inverse of textToPixelHeight.  Modelled
from the spec. -/
def pixelToTextHeight (f : GFrame) (h : Int) : Int :=
  h - marginHeight f - f.scrollBarAreaHeight - 2 * f.internalBorderWidth

/-- FRAME_INNER_WIDTH: native width minus the internal borders.  Modelled
from the spec glossary. -/
def innerWidth (f : GFrame) : Int := f.pixelWidth - 2 * f.internalBorderWidth

/-- FRAME_INNER_HEIGHT: native height minus top margin and internal
borders.  Modelled from the spec glossary. -/
def innerHeight (f : GFrame) : Int :=
  f.pixelHeight - topMarginHeight f - 2 * f.internalBorderWidth

/-- frame_inhibit_resize (frame.c:186-203): true if
`frame-inhibit-implied-resize` is `force`, or the frame has completed its
first layout pass and the global policy, the changed parameter, an active
fullscreen dimension, or the frame being a text-terminal frame inhibits
the implied resize.  (USE_GTK is not defined in the modelled build.) -/
def frameInhibitResize (env : GEnv) (f : GFrame) (horizontal : Bool)
    (parameter : FParam) : Bool :=
  decide (env.frameInhibitImpliedResize = .force)
  || (f.afterMakeFrame
      && (decide (env.frameInhibitImpliedResize = .always)
          || (match env.frameInhibitImpliedResize with
              | .params l => decide (parameter ∈ l)
              | _ => false)
          || (horizontal && decide (f.fullscreenParam ≠ none)
              && decide (f.fullscreenParam ≠ some .fullheight))
          || (!horizontal && decide (f.fullscreenParam ≠ none)
              && decide (f.fullscreenParam ≠ some .fullwidth))
          || f.termcapP || f.msdosP))

/-- frame_windows_min_size (frame.c:438-485): minimum inner size of the
frame; an explicit `min-width`/`min-height` parameter wins (floored at 1),
otherwise the elisp `frame-windows-min-size` collaborator decides; tty
frames get an extra height floor for menu bar, tab bar, mode line and echo
area. -/
def frameWindowsMinSize (env : GEnv) (f : GFrame) (horizontal : Bool)
    (ignoreSafe : Bool) (pixelwise : Bool) : Int :=
  let retval :=
    match (if horizontal then f.paramMinWidth else f.paramMinHeight) with
    | some par =>
      let minSize := if par < 1 then 1 else par
      if pixelwise then
        minSize * (if horizontal then f.columnWidth else f.lineHeight)
      else minSize
    | none => env.windowsMinSizeLisp horizontal ignoreSafe pixelwise
  if (f.termcapP ∨ f.msdosP) ∧ ¬horizontal then
    let minHeight := f.menuBarLines + f.tabBarLines
      + (if f.wantsModeline then 1 else 0) + (if f.hasMinibuf then 1 else 0)
    let minHeight := if minHeight = 0 then 1 else minHeight
    if retval < minHeight then minHeight else retval
  else retval

/-- One record of the resize-history diagnostic log, as written by
frame_size_history_adjust (frame.c:608-644): decision context and the
old/new text, character, native and inner dimensions. -/
structure HRecord where
  inhibit : Int
  parameter : FParam
  oldTextWidth : Int
  oldTextHeight : Int
  newTextWidth : Int
  newTextHeight : Int
  oldTextCols : Int
  oldTextLines : Int
  newTextCols : Int
  newTextLines : Int
  oldNativeWidth : Int
  oldNativeHeight : Int
  newNativeWidth : Int
  newNativeHeight : Int
  oldInnerWidth : Int
  oldInnerHeight : Int
  newInnerWidth : Int
  newInnerHeight : Int
  minInnerWidth : Int
  minInnerHeight : Int
  inhibitHorizontal : Bool
  inhibitVertical : Bool

/-- The global `frame_size_history` variable: either not a cons (recording
disabled) or a cons of a remaining-capacity fixnum and the list of
records. -/
inductive History where
  | notRecording
  | recording (count : Int) (records : List HRecord)

/-- CONSP (frame_size_history). -/
def History.isCons : History → Bool
  | .notRecording => false
  | .recording _ _ => true

/-- The records held by the history (empty when recording is disabled). -/
def History.records : History → List HRecord
  | .notRecording => []
  | .recording _ rs => rs

/-- frame_size_history_adjust (frame.c:608-644): when the history is a cons
whose car is a positive fixnum, decrement the capacity and prepend one
record; otherwise leave the history alone. -/
def historyAdjust (h : History) (r : HRecord) : History :=
  match h with
  | .notRecording => .notRecording
  | .recording c rs => if 0 < c then .recording (c - 1) (r :: rs) else .recording c rs

/-- The values adjust_frame_size computes before deciding how to act
(frame.c:740-817): minimum inner sizes, per-axis inhibit flags, and the
candidate native/inner/text/character dimensions. -/
structure AdjustComputed where
  minInnerWidth : Int
  minInnerHeight : Int
  inhibitHorizontal : Bool
  inhibitVertical : Bool
  newNativeWidth : Int
  newNativeHeight : Int
  newInnerWidth : Int
  newInnerHeight : Int
  newTextWidth : Int
  newTextHeight : Int
  newTextCols : Int
  newTextLines : Int
  oldInnerWidth : Int
  oldInnerHeight : Int

/-- The computation phase of adjust_frame_size (frame.c:740-817).
`newTextWidth0`/`newTextHeight0` are the requested text sizes; for INHIBIT
in [2..4] a value of -1 means "keep the current text size".  The candidate
native size is the conversion of the requested text size floored at the
minimum inner size plus border/margin overhead, unless the axis is
inhibited (and INHIBIT < 5), in which case the current native size is
kept. -/
def adjustComputed (env : GEnv) (f : GFrame)
    (newTextWidth0 newTextHeight0 inhibit : Int) (parameter : FParam) :
    AdjustComputed :=
  let unitWidth := f.columnWidth
  let unitHeight := f.lineHeight
  let minInnerWidth := frameWindowsMinSize env f true (inhibit = 5) true
  let minInnerHeight := frameWindowsMinSize env f false (inhibit = 5) true
  let oldInnerWidth := f.rootWindowPixelWidth
  let oldInnerHeight := f.rootWindowPixelHeight
    + (if f.hasMinibuf ∧ ¬f.minibufOnly then f.minibufWindowPixelHeight else 0)
  let conditional := 2 ≤ inhibit ∧ inhibit ≤ 4
  let ntw := if conditional ∧ newTextWidth0 = -1 then f.textWidth else newTextWidth0
  let nth := if conditional ∧ newTextHeight0 = -1 then f.textHeight else newTextHeight0
  let inhibitHorizontal :=
    if conditional then
      decide (innerWidth f ≥ minInnerWidth)
      && (decide (inhibit = 4) || frameInhibitResize env f true parameter)
    else decide (inhibit = 5)
  let inhibitVertical :=
    if conditional then
      decide (innerHeight f ≥ minInnerHeight)
      && (decide (inhibit = 4) || frameInhibitResize env f false parameter)
    else decide (inhibit = 5)
  let newNativeWidth :=
    if inhibitHorizontal ∧ inhibit < 5 then f.pixelWidth
    else max (textToPixelWidth f ntw)
             (minInnerWidth + 2 * f.internalBorderWidth)
  let newInnerWidth := newNativeWidth - 2 * f.internalBorderWidth
  let newTextWidth := pixelToTextWidth f newNativeWidth
  let newTextCols := Int.tdiv newTextWidth unitWidth
  let newNativeHeight :=
    if inhibitVertical ∧ inhibit < 5 then f.pixelHeight
    else max (textToPixelHeight f nth)
             (minInnerHeight + marginHeight f + 2 * f.internalBorderWidth)
  let newInnerHeight := newNativeHeight - marginHeight f - 2 * f.internalBorderWidth
  let newTextHeight := pixelToTextHeight f newNativeHeight
  let newTextLines := Int.tdiv newTextHeight unitHeight
  { minInnerWidth := minInnerWidth, minInnerHeight := minInnerHeight,
    inhibitHorizontal := inhibitHorizontal, inhibitVertical := inhibitVertical,
    newNativeWidth := newNativeWidth, newNativeHeight := newNativeHeight,
    newInnerWidth := newInnerWidth, newInnerHeight := newInnerHeight,
    newTextWidth := newTextWidth, newTextHeight := newTextHeight,
    newTextCols := newTextCols, newTextLines := newTextLines,
    oldInnerWidth := oldInnerWidth, oldInnerHeight := oldInnerHeight }

/-- The history record adjust_frame_size passes to
frame_size_history_adjust (frame.c:852-863 and 884-895), given the
possibly updated candidate native sizes. -/
def mkHRecord (f : GFrame) (c : AdjustComputed) (inhibit : Int)
    (parameter : FParam) (nativeW nativeH : Int) : HRecord :=
  { inhibit := inhibit, parameter := parameter,
    oldTextWidth := f.textWidth, oldTextHeight := f.textHeight,
    newTextWidth := c.newTextWidth, newTextHeight := c.newTextHeight,
    oldTextCols := f.cols, oldTextLines := f.lines,
    newTextCols := c.newTextCols, newTextLines := c.newTextLines,
    oldNativeWidth := f.pixelWidth, oldNativeHeight := f.pixelHeight,
    newNativeWidth := nativeW, newNativeHeight := nativeH,
    oldInnerWidth := c.oldInnerWidth, oldInnerHeight := c.oldInnerHeight,
    newInnerWidth := c.newInnerWidth, newInnerHeight := c.newInnerHeight,
    minInnerWidth := c.minInnerWidth, minInnerHeight := c.minInnerHeight,
    inhibitHorizontal := c.inhibitHorizontal,
    inhibitVertical := c.inhibitVertical }

/-- Result of one adjust_frame_size call: the frame, the history, and the
native size passed to set_window_size_hook when the backend was asked to
resize (none when no request was issued or the hook is absent). -/
structure AdjustResult where
  f : GFrame
  history : History
  hookCall : Option (Int × Int)

/-- The condition under which adjust_frame_size hands the resize to the
backend (frame.c:819-829): a graphical frame whose native window exists,
and on some non-inhibited axis the candidate native size differs from the
current one or INHIBIT is 0 or 2. -/
def adjustDelegates (f : GFrame) (c : AdjustComputed) (inhibit : Int) : Bool :=
  f.windowP && f.canSetWindowSize
  && ((!c.inhibitHorizontal
       && (decide (c.newNativeWidth ≠ f.pixelWidth)
           || decide (inhibit = 0) || decide (inhibit = 2)))
      || (!c.inhibitVertical
          && (decide (c.newNativeHeight ≠ f.pixelHeight)
              || decide (inhibit = 0) || decide (inhibit = 2))))

/-- adjust_frame_size (frame.c:736-1025).  The pure computation is
adjustComputed; then either the resize is delegated to the backend
(frame.c:830-882: record the history, for INHIBIT 0/1 stash the pending
native size, call set_window_size_hook, mark the frame resized and
return), or the history is recorded and, when every dimension is
unchanged and the root window already sits at the top margin, nothing
happens (frame.c:884-909); otherwise the sub-window tree is resized to
the new inner sizes (resize_frame_windows, an external window-tree
operation modelled by updating the root window metrics), the authoritative
geometry fields are assigned, and the frame is marked garbaged and
resized (frame.c:911-1014).  The MSDOS block, the tty FrameCols/FrameRows
bookkeeping, the tab/tool-bar sub-window updates, the cursor clamping and
adjust_frame_glyphs/calculate_costs touch terminal or window state outside
this frame record; the keep-ratio cascade over child frames
(frame.c:1016-1024) iterates the registry and is exercised directly
through keepRatioAdjust below. -/
def adjustFrameSize (env : GEnv) (f : GFrame) (history : History)
    (newTextWidth0 newTextHeight0 inhibit : Int) (pretend : Bool)
    (parameter : FParam) : AdjustResult :=
  let c := adjustComputed env f newTextWidth0 newTextHeight0 inhibit parameter
  if adjustDelegates f c inhibit then
    let pickup := inhibit = 2 ∧ (0 ≤ f.newWidth ∨ 0 ≤ f.newHeight)
    let nativeW := if pickup ∧ 0 ≤ f.newWidth then f.newWidth else c.newNativeWidth
    let nativeH := if pickup ∧ 0 ≤ f.newHeight then f.newHeight else c.newNativeHeight
    let h1 := if history.isCons then
        historyAdjust history (mkHRecord f c inhibit parameter nativeW nativeH)
      else history
    let f1 := if inhibit = 0 ∨ inhibit = 1 then
        { f with newWidth := nativeW, newHeight := nativeH, newSizeP := false }
      else f
    { f := { f1 with resizedP := true },
      history := h1,
      hookCall := if env.hasSetWindowSizeHook then some (nativeW, nativeH) else none }
  else
    let h1 := if history.isCons then
        historyAdjust history
          (mkHRecord f c inhibit parameter c.newNativeWidth c.newNativeHeight)
      else history
    if f.rootWindowPixelTop = topMarginHeight f
       ∧ c.newTextWidth = f.textWidth ∧ c.newTextHeight = f.textHeight
       ∧ c.newInnerWidth = c.oldInnerWidth ∧ c.newInnerHeight = c.oldInnerHeight
       ∧ c.newNativeWidth = f.pixelWidth ∧ c.newNativeHeight = f.pixelHeight
       ∧ c.newTextCols = f.cols ∧ c.newTextLines = f.lines then
      { f := f, history := h1, hookCall := none }
    else
      let f1 := if c.newInnerWidth ≠ c.oldInnerWidth then
          { f with rootWindowPixelWidth := c.newInnerWidth }
        else f
      let f2 := if c.newInnerHeight ≠ c.oldInnerHeight
                   ∨ f.rootWindowPixelTop ≠ topMarginHeight f then
          { f1 with
            rootWindowPixelHeight := c.newInnerHeight
              - (if f.hasMinibuf ∧ ¬f.minibufOnly then f.minibufWindowPixelHeight
                 else 0),
            rootWindowPixelTop := topMarginHeight f }
        else f1
      { f := { f2 with
               cols := c.newTextCols, lines := c.newTextLines,
               textWidth := c.newTextWidth, textHeight := c.newTextHeight,
               pixelWidth := c.newNativeWidth, pixelHeight := c.newNativeHeight,
               totalCols := Int.tdiv c.newNativeWidth f.columnWidth,
               totalLines := Int.tdiv c.newNativeHeight f.lineHeight,
               garbaged := true, resizedP := true },
        history := h1, hookCall := none }

/-- C's `(int)(a * factor + 0.5)` where factor is the double n/o: modelled
exactly, as truncation toward zero of the rational a*(n/o) + 1/2 =
(2an+o)/(2o), which for positive o is Int.tdiv of numerator by
denominator.  On the concrete inputs verified below every intermediate
double of keep_ratio is exactly representable, so this exact computation
coincides with the IEEE one. -/
def truncScaleHalfUp (a n o : Int) : Int := Int.tdiv (2 * a * n + o) (2 * o)

/-- C's `(int)(a * factor * 0.5 + 0.5)` with factor = n/o: truncation
toward zero of a*n/(2o) + 1/2 = (an+o)/(2o), computed exactly. -/
def truncHalfScaleHalfUp (a n o : Int) : Int := Int.tdiv (a * n + o) (2 * o)

/-- Result of keep_ratio: the child frame, the history, the native size
requested from the backend (via the inner adjust_frame_size call, if any)
and the position passed to set_frame_offset_hook (if called). -/
structure KRResult where
  f : GFrame
  history : History
  hookCall : Option (Int × Int)
  offsetCall : Option (Int × Int)

/-- keep_ratio (frame.c:516-605): after the parent frame P changed native
size from (oldWidth, oldHeight) to (newWidth, newHeight), scale child F's
position and/or size according to F's `keep-ratio` parameter.  Position is
adjusted unless the value is a cons with nil cdr; each position axis can
be pinned by `top-only`/`left-only`, and when the corresponding size axis
is not scaled the child is re-centred rather than left protruding past
the parent's far edge.  Size is adjusted unless the value is a cons with
nil car; `width-only`/`height-only` pin one axis by passing -1 for its
pixel size to adjust_frame_size with INHIBIT 1. -/
def keepRatioAdjust (env : GEnv) (f p : GFrame) (history : History)
    (oldWidth oldHeight newWidth newHeight : Int) : KRResult :=
  let kr := f.keepRatioP
  if kr = .atom .knil then
    { f := f, history := history, hookCall := none, offsetCall := none }
  else
    if ¬kr.consp ∨ kr.cdr ≠ .knil then
      let posX :=
        if kr.consp ∧ kr.cdr = .ktopOnly then f.leftPos
        else
          let px := truncScaleHalfUp f.leftPos newWidth oldWidth
          if kr.consp ∧ (kr.car = .knil ∨ kr.car = .kheightOnly)
             ∧ p.pixelWidth - f.pixelWidth < px then
            let pfWidth := p.pixelWidth - f.pixelWidth
            if pfWidth ≤ 0 then 0
            else truncHalfScaleHalfUp pfWidth newWidth oldWidth
          else px
      let fx := if kr.consp ∧ kr.cdr = .ktopOnly then f
                else { f with leftPos := posX }
      let posY :=
        if kr.consp ∧ kr.cdr = .kleftOnly then fx.topPos
        else
          let py := truncScaleHalfUp fx.topPos newHeight oldHeight
          if kr.consp ∧ (kr.car = .knil ∨ kr.car = .kwidthOnly)
             ∧ p.pixelHeight - fx.pixelHeight < py then
            let pfHeight := p.pixelHeight - fx.pixelHeight
            if pfHeight ≤ 0 then 0
            else truncHalfScaleHalfUp pfHeight newHeight oldHeight
          else py
      let fy := if kr.consp ∧ kr.cdr = .kleftOnly then fx
                else { fx with topPos := posY }
      let offset := if env.hasSetFrameOffsetHook then some (posX, posY) else none
      if ¬kr.consp ∨ kr.car ≠ .knil then
        let pixelWidth :=
          if kr.consp ∧ kr.car = .kheightOnly then (-1 : Int)
          else truncScaleHalfUp fy.pixelWidth newWidth oldWidth
        let pixelHeight :=
          if kr.consp ∧ kr.car = .kwidthOnly then (-1 : Int)
          else truncScaleHalfUp fy.pixelHeight newHeight oldHeight
        let r := adjustFrameSize env fy history
          (pixelToTextWidth fy pixelWidth) (pixelToTextHeight fy pixelHeight)
          1 false .keepRatioQ
        { f := r.f, history := r.history, hookCall := r.hookCall,
          offsetCall := offset }
      else
        { f := fy, history := history, hookCall := none, offsetCall := offset }
    else
      if ¬kr.consp ∨ kr.car ≠ .knil then
        let pixelWidth :=
          if kr.consp ∧ kr.car = .kheightOnly then (-1 : Int)
          else truncScaleHalfUp f.pixelWidth newWidth oldWidth
        let pixelHeight :=
          if kr.consp ∧ kr.car = .kwidthOnly then (-1 : Int)
          else truncScaleHalfUp f.pixelHeight newHeight oldHeight
        let r := adjustFrameSize env f history
          (pixelToTextWidth f pixelWidth) (pixelToTextHeight f pixelHeight)
          1 false .keepRatioQ
        { f := r.f, history := r.history, hookCall := r.hookCall,
          offsetCall := none }
      else
        { f := f, history := history, hookCall := none, offsetCall := none }

/-- The geometry block of make_frame (frame.c:1133-1155): the fresh
frame's text size is set to the 80x25 placeholder, its native pixel size
to the plain unit conversion (no border or margin overhead yet), and the
root (and optional minibuffer) sub-window metrics are derived from it. -/
structure MakeFrameGeometry where
  cols : Int
  lines : Int
  totalCols : Int
  totalLines : Int
  textWidth : Int
  textHeight : Int
  pixelWidth : Int
  pixelHeight : Int
  rootTotalCols : Int
  rootTotalLines : Int
  rootPixelWidth : Int
  rootPixelHeight : Int
  miniTotalLines : Int
  miniPixelHeight : Int

/-- make_frame's size initialization (frame.c:1133-1155) for a frame whose
character cell is columnWidth x lineHeight pixels.  With MINI_P the root
window loses one of the 25 lines to the minibuffer window. -/
def makeFrameGeometry (miniP : Bool) (columnWidth lineHeight : Int) :
    MakeFrameGeometry :=
  let cols : Int := 80
  let lines : Int := 25
  let pixelWidth := 80 * columnWidth
  let pixelHeight := 25 * lineHeight
  let rootTotalLines := lines - (if miniP then 1 else 0)
  { cols := cols, lines := lines, totalCols := cols, totalLines := lines,
    textWidth := pixelWidth, textHeight := pixelHeight,
    pixelWidth := pixelWidth, pixelHeight := pixelHeight,
    rootTotalCols := cols, rootTotalLines := rootTotalLines,
    rootPixelWidth := pixelWidth,
    rootPixelHeight := rootTotalLines * lineHeight,
    miniTotalLines := if miniP then 1 else 0,
    miniPixelHeight := if miniP then lineHeight else 0 }

/-- A plain graphical frame used in the concrete scenarios: 10x20 pixel
character cells, 20x15 characters (200x300 pixels), no decorations, root
window spanning the whole frame, no pending resize. -/
def gFrameA : GFrame :=
  { cols := 20, lines := 15, textWidth := 200, textHeight := 300,
    pixelWidth := 200, pixelHeight := 300, totalCols := 20, totalLines := 15,
    columnWidth := 10, lineHeight := 20, internalBorderWidth := 0,
    totalFringeWidth := 0, scrollBarAreaWidth := 0, scrollBarAreaHeight := 0,
    menuBarHeight := 0, tabBarHeight := 0, menuBarLines := 0, tabBarLines := 0,
    wantsModeline := true, hasMinibuf := false, minibufOnly := false,
    windowP := true, termcapP := false, msdosP := false,
    canSetWindowSize := false, afterMakeFrame := true,
    newWidth := -1, newHeight := -1, newSizeP := false,
    resizedP := false, garbaged := false,
    rootWindowPixelTop := 0, rootWindowPixelWidth := 200,
    rootWindowPixelHeight := 300, minibufWindowPixelHeight := 0,
    leftPos := 30, topPos := 40,
    paramMinWidth := none, paramMinHeight := none,
    keepRatioP := .kcons .kwidthOnly .knil, fullscreenParam := none }

/-- Environment for the concrete scenarios: no inhibit policy, a window
layout whose minimum inner size is 20x100 pixels, both backend hooks
present. -/
def gEnvA : GEnv :=
  { frameInhibitImpliedResize := .off,
    windowsMinSizeLisp := fun horizontal _ _ => if horizontal then 20 else 100,
    hasSetWindowSizeHook := true, hasSetFrameOffsetHook := true }

/-- gFrameA's parent after growing to 1000 pixels wide (C7 scenario). -/
def gParentA : GFrame :=
  { gFrameA with pixelWidth := 1000, pixelHeight := 600,
                 keepRatioP := .atom .knil }

/-- gFrameA with a native window (backend-capable) and no keep-ratio. -/
def gFrameB : GFrame :=
  { gFrameA with canSetWindowSize := true, keepRatioP := .atom .knil }

/-- C1 (amended): when the mode does not force unconditional delegation
(INHIBIT is neither 0 nor 2), no pending native resize exists, the
requested text sizes equal the frame's current ones, every computed
dimension (native, inner, text, character) equals the current one, and
the root window already sits at the frame's top margin, adjust_frame_size
leaves the frame completely unchanged - in particular the garbaged flag
is not newly set - and issues no backend request; the resize history is
unchanged whenever recording is disabled (when recording is enabled a
record of the no-change decision is still appended, see the
counterexample to the original claim). -/
theorem c1_adjust_size_unchanged_noop (env : GEnv) (f : GFrame) (h : History)
    (ntw nth inhibit : Int) (pretend : Bool) (parameter : FParam)
    (h0 : inhibit ≠ 0) (h2 : inhibit ≠ 2)
    (hpw : f.newWidth < 0) (hph : f.newHeight < 0)
    (hw : ntw = f.textWidth) (hh : nth = f.textHeight)
    (hnw : (adjustComputed env f ntw nth inhibit parameter).newNativeWidth
           = f.pixelWidth)
    (hnh : (adjustComputed env f ntw nth inhibit parameter).newNativeHeight
           = f.pixelHeight)
    (htw : (adjustComputed env f ntw nth inhibit parameter).newTextWidth
           = f.textWidth)
    (hth : (adjustComputed env f ntw nth inhibit parameter).newTextHeight
           = f.textHeight)
    (hiw : (adjustComputed env f ntw nth inhibit parameter).newInnerWidth
           = (adjustComputed env f ntw nth inhibit parameter).oldInnerWidth)
    (hih : (adjustComputed env f ntw nth inhibit parameter).newInnerHeight
           = (adjustComputed env f ntw nth inhibit parameter).oldInnerHeight)
    (hcols : (adjustComputed env f ntw nth inhibit parameter).newTextCols
             = f.cols)
    (hlines : (adjustComputed env f ntw nth inhibit parameter).newTextLines
              = f.lines)
    (htop : f.rootWindowPixelTop = topMarginHeight f) :
    (adjustFrameSize env f h ntw nth inhibit pretend parameter).f = f
    ∧ (adjustFrameSize env f h ntw nth inhibit pretend parameter).hookCall = none
    ∧ (h = .notRecording →
       (adjustFrameSize env f h ntw nth inhibit pretend parameter).history = h) := by
  have hdel : adjustDelegates f (adjustComputed env f ntw nth inhibit parameter)
      inhibit = false := by
    simp [adjustDelegates, hnw, hnh, h0, h2]
  simp only [adjustFrameSize, hdel, Bool.false_eq_true, if_false]
  rw [if_pos ⟨htop, htw, hth, hiw, hih, hnw, hnh, hcols, hlines⟩]
  refine ⟨rfl, rfl, fun hrec => ?_⟩
  subst hrec
  rfl

/-- C1 witness: the no-op hypotheses hold at the concrete frame gFrameB
with its current sizes requested under INHIBIT 1. -/
theorem c1_adjust_size_unchanged_noop_witness :
    (adjustFrameSize gEnvA gFrameB .notRecording 200 300 1 false .pnil).f = gFrameB
    ∧ (adjustFrameSize gEnvA gFrameB .notRecording 200 300 1 false .pnil).hookCall
      = none
    ∧ (History.notRecording = .notRecording →
       (adjustFrameSize gEnvA gFrameB .notRecording 200 300 1 false .pnil).history
       = .notRecording) :=
  c1_adjust_size_unchanged_noop gEnvA gFrameB .notRecording 200 300 1 false .pnil
    (by decide) (by decide) (by decide) (by decide) (by decide) (by decide)
    (by decide) (by decide) (by decide) (by decide) (by decide) (by decide)
    (by decide) (by decide) (by decide)

/-- C1 counterexample to the original claim: at gFrameB with recording
enabled (capacity 100, empty log), a fully unchanged adjust_frame_size
call leaves the frame untouched and sets no repaint flag, yet one record
IS appended to the resize history - frame_size_history_adjust runs at
frame.c:884 before the no-change early return at frame.c:897. -/
theorem c1_noop_appends_history_counterexample :
    (adjustFrameSize gEnvA gFrameB (.recording 100 []) 200 300 1 false .pnil).f
      = gFrameB
    ∧ (adjustFrameSize gEnvA gFrameB (.recording 100 []) 200 300 1 false
        .pnil).f.garbaged = false
    ∧ (adjustFrameSize gEnvA gFrameB (.recording 100 []) 200 300 1 false
        .pnil).hookCall = none
    ∧ (adjustFrameSize gEnvA gFrameB (.recording 100 []) 200 300 1 false
        .pnil).history.records.length = 1 := by
  refine ⟨rfl, rfl, rfl, rfl⟩

/-- C2 (amended): whenever adjust_frame_size decides to delegate the
resize to the backend, it returns without modifying any authoritative
geometry field (text width/height, native pixel width/height,
column/line counts, total columns/lines, root window metrics), merely
marking the frame resized; the pending native size is recorded on the
frame only when INHIBIT is 0 or 1 (for INHIBIT 2-4 the request is issued
without recording it, see the counterexample), and the backend hook, when
present, is asked for the candidate native size. -/
theorem c2_delegate_preserves_geometry (env : GEnv) (f : GFrame) (h : History)
    (ntw nth inhibit : Int) (pretend : Bool) (parameter : FParam)
    (hdel : adjustDelegates f (adjustComputed env f ntw nth inhibit parameter)
            inhibit = true) :
    (adjustFrameSize env f h ntw nth inhibit pretend parameter).f.textWidth
      = f.textWidth
    ∧ (adjustFrameSize env f h ntw nth inhibit pretend parameter).f.textHeight
      = f.textHeight
    ∧ (adjustFrameSize env f h ntw nth inhibit pretend parameter).f.pixelWidth
      = f.pixelWidth
    ∧ (adjustFrameSize env f h ntw nth inhibit pretend parameter).f.pixelHeight
      = f.pixelHeight
    ∧ (adjustFrameSize env f h ntw nth inhibit pretend parameter).f.cols = f.cols
    ∧ (adjustFrameSize env f h ntw nth inhibit pretend parameter).f.lines
      = f.lines
    ∧ (adjustFrameSize env f h ntw nth inhibit pretend parameter).f.totalCols
      = f.totalCols
    ∧ (adjustFrameSize env f h ntw nth inhibit pretend parameter).f.totalLines
      = f.totalLines
    ∧ (adjustFrameSize env f h ntw nth inhibit pretend
        parameter).f.rootWindowPixelWidth = f.rootWindowPixelWidth
    ∧ (adjustFrameSize env f h ntw nth inhibit pretend
        parameter).f.rootWindowPixelHeight = f.rootWindowPixelHeight
    ∧ (adjustFrameSize env f h ntw nth inhibit pretend parameter).f.garbaged
      = f.garbaged
    ∧ (adjustFrameSize env f h ntw nth inhibit pretend parameter).f.resizedP
      = true
    ∧ ((inhibit = 0 ∨ inhibit = 1) →
       (adjustFrameSize env f h ntw nth inhibit pretend parameter).f.newWidth
         = (adjustComputed env f ntw nth inhibit parameter).newNativeWidth
       ∧ (adjustFrameSize env f h ntw nth inhibit pretend parameter).f.newHeight
         = (adjustComputed env f ntw nth inhibit parameter).newNativeHeight
       ∧ (adjustFrameSize env f h ntw nth inhibit pretend parameter).f.newSizeP
         = false
       ∧ (env.hasSetWindowSizeHook = true →
          (adjustFrameSize env f h ntw nth inhibit pretend parameter).hookCall
            = some ((adjustComputed env f ntw nth inhibit parameter).newNativeWidth,
                    (adjustComputed env f ntw nth inhibit parameter).newNativeHeight))) := by
  by_cases h01 : inhibit = 0 ∨ inhibit = 1
  · rcases h01 with rfl | rfl <;> simp [adjustFrameSize, hdel]
  · simp [adjustFrameSize, hdel, h01]

/-- C2 witness: gFrameB delegates under INHIBIT 1 when asked to grow its
text width from 200 to 300 pixels. -/
theorem c2_delegate_preserves_geometry_witness :
    (adjustFrameSize gEnvA gFrameB .notRecording 300 300 1 false
      .pnil).f.textWidth = gFrameB.textWidth
    ∧ (adjustFrameSize gEnvA gFrameB .notRecording 300 300 1 false
        .pnil).f.textHeight = gFrameB.textHeight
    ∧ (adjustFrameSize gEnvA gFrameB .notRecording 300 300 1 false
        .pnil).f.pixelWidth = gFrameB.pixelWidth
    ∧ (adjustFrameSize gEnvA gFrameB .notRecording 300 300 1 false
        .pnil).f.pixelHeight = gFrameB.pixelHeight
    ∧ (adjustFrameSize gEnvA gFrameB .notRecording 300 300 1 false
        .pnil).f.cols = gFrameB.cols
    ∧ (adjustFrameSize gEnvA gFrameB .notRecording 300 300 1 false
        .pnil).f.lines = gFrameB.lines
    ∧ (adjustFrameSize gEnvA gFrameB .notRecording 300 300 1 false
        .pnil).f.totalCols = gFrameB.totalCols
    ∧ (adjustFrameSize gEnvA gFrameB .notRecording 300 300 1 false
        .pnil).f.totalLines = gFrameB.totalLines
    ∧ (adjustFrameSize gEnvA gFrameB .notRecording 300 300 1 false
        .pnil).f.rootWindowPixelWidth = gFrameB.rootWindowPixelWidth
    ∧ (adjustFrameSize gEnvA gFrameB .notRecording 300 300 1 false
        .pnil).f.rootWindowPixelHeight = gFrameB.rootWindowPixelHeight
    ∧ (adjustFrameSize gEnvA gFrameB .notRecording 300 300 1 false
        .pnil).f.garbaged = gFrameB.garbaged
    ∧ (adjustFrameSize gEnvA gFrameB .notRecording 300 300 1 false
        .pnil).f.resizedP = true
    ∧ ((1 : Int) = 0 ∨ (1 : Int) = 1 →
       (adjustFrameSize gEnvA gFrameB .notRecording 300 300 1 false
         .pnil).f.newWidth
         = (adjustComputed gEnvA gFrameB 300 300 1 .pnil).newNativeWidth
       ∧ (adjustFrameSize gEnvA gFrameB .notRecording 300 300 1 false
           .pnil).f.newHeight
         = (adjustComputed gEnvA gFrameB 300 300 1 .pnil).newNativeHeight
       ∧ (adjustFrameSize gEnvA gFrameB .notRecording 300 300 1 false
           .pnil).f.newSizeP = false
       ∧ (gEnvA.hasSetWindowSizeHook = true →
          (adjustFrameSize gEnvA gFrameB .notRecording 300 300 1 false
            .pnil).hookCall
            = some ((adjustComputed gEnvA gFrameB 300 300 1 .pnil).newNativeWidth,
                    (adjustComputed gEnvA gFrameB 300 300 1 .pnil).newNativeHeight))) :=
  c2_delegate_preserves_geometry gEnvA gFrameB .notRecording 300 300 1 false
    .pnil (by decide)

/-- C2 counterexample to the original claim: under INHIBIT 3 with a
changed candidate native width, gFrameB's resize IS delegated to the
backend (the hook is asked for 300x300), yet the pending size is NOT
recorded on the frame - f->new_width/new_height stay -1; only INHIBIT 0
and 1 store the pending size (frame.c:865-874). -/
theorem c2_delegate_pending_not_recorded_counterexample :
    adjustDelegates gFrameB (adjustComputed gEnvA gFrameB 300 300 3 .pnil) 3
      = true
    ∧ (adjustFrameSize gEnvA gFrameB .notRecording 300 300 3 false
        .pnil).hookCall = some (300, 300)
    ∧ (adjustFrameSize gEnvA gFrameB .notRecording 300 300 3 false
        .pnil).f.newWidth = -1
    ∧ (adjustFrameSize gEnvA gFrameB .notRecording 300 300 3 false
        .pnil).f.newHeight = -1 := by
  refine ⟨rfl, rfl, rfl, rfl⟩

/-- C7: evaluation of the code at the failing input.  gFrameA is a child
frame (200x300 pixels, at (30,40)) whose keep-ratio parameter selects
width-only scaling with no positional adjustment; its parent grew from
800 to 1000 pixels wide with unchanged height 600.  The position is
unchanged and the width is scaled by the exact ratio (200 -> 250), but
the height is NOT preserved: keep_ratio passes pixel height -1 to
adjust_frame_size with INHIBIT 1, where a negative value means
"pathologically small" rather than "keep", so the height collapses to the
minimum-size floor (100 pixels instead of 300), contradicting
keep_ratio's own comment that with `width-only` the height remains
unaltered. -/
theorem c7_keep_ratio_width_only_clamps_height :
    gFrameA.pixelHeight = 300
    ∧ (keepRatioAdjust gEnvA gFrameA gParentA .notRecording 800 600 1000
        600).f.pixelWidth = 250
    ∧ (keepRatioAdjust gEnvA gFrameA gParentA .notRecording 800 600 1000
        600).f.pixelHeight = 100
    ∧ (keepRatioAdjust gEnvA gFrameA gParentA .notRecording 800 600 1000
        600).f.leftPos = gFrameA.leftPos
    ∧ (keepRatioAdjust gEnvA gFrameA gParentA .notRecording 800 600 1000
        600).f.topPos = gFrameA.topPos
    ∧ (keepRatioAdjust gEnvA gFrameA gParentA .notRecording 800 600 1000
        600).offsetCall = none := by
  refine ⟨rfl, by decide, by decide, by decide, by decide, by decide⟩

/-- The frame produced for the C8 scenario: the make_frame 80x25
placeholder at 10x20 pixel units, with its own minibuffer window (20
pixels high, root window 480 pixels) and a 5 pixel internal border to be
accounted for by the geometry pass. -/
def gFrameC8 : GFrame :=
  { gFrameA with
    cols := 80, lines := 25, textWidth := 800, textHeight := 500,
    pixelWidth := 800, pixelHeight := 500, totalCols := 80, totalLines := 25,
    internalBorderWidth := 5, rootWindowPixelWidth := 800,
    rootWindowPixelHeight := 480, hasMinibuf := true,
    minibufWindowPixelHeight := 20, keepRatioP := .atom .knil }

/-- C8: make_frame assigns the default 80x25 text size, which at 10x20
pixel character cells is a native pixel size of 800x500 before any
border/margin overhead (make_frame adds none); feeding that frame with a
5 pixel internal border on each side through the geometry computation of
adjust_frame_size yields a candidate native width of 810. -/
theorem c8_make_frame_default_size :
    (makeFrameGeometry true 10 20).cols = 80
    ∧ (makeFrameGeometry true 10 20).lines = 25
    ∧ (makeFrameGeometry true 10 20).textWidth = 800
    ∧ (makeFrameGeometry true 10 20).textHeight = 500
    ∧ (makeFrameGeometry true 10 20).pixelWidth = 800
    ∧ (makeFrameGeometry true 10 20).pixelHeight = 500
    ∧ (adjustComputed gEnvA gFrameC8 800 500 1 .pnil).newNativeWidth = 810 := by
  refine ⟨rfl, rfl, rfl, rfl, rfl, rfl, rfl⟩

/-! ## Lifecycle, registry and parameter store

The registry model: frames are identified by numeric ids, the global
Vframe_list is a list of live frame records, and windows (external
collaborators owned by the window tree) are referenced by numeric ids
whose liveness/minibuffer-ness/owning frame are supplied by the
environment. -/

/-- Lisp values that flow through store_frame_param and the frame
parameter alists: nil, t, `only`, window and frame references, fixnums,
and everything else. -/
inductive LVal where
  | nil
  | t
  | only
  | win (w : Nat)
  | frm (i : Nat)
  | num (n : Int)
  | other (k : Nat)
deriving DecidableEq, Repr

/-- The parameter symbols store_frame_param treats specially, plus a
catch-all for the rest. -/
inductive PProp where
  | minibuffer
  | parentFrame
  | deleteBefore
  | bufferList
  | buriedBufferList
  | scrollBarWidth
  | scrollBarHeight
  | bufferPredicate
  | menuBarLinesP
  | tabBarLinesP
  | nameP
  | ttyColorMode
  | otherP (k : Nat)
deriving DecidableEq, Repr

/-- A frame as seen by the lifecycle/registry and parameter-store
operations: lifecycle flags, kind, structural links (parent frame,
minibuffer window, root window) and the parameter alist.  Windows are
external; a frame only holds their ids. -/
structure EFrame where
  id : Nat
  visible : Bool
  iconified : Bool
  tooltip : Bool
  windowP : Bool
  tty : Bool
  initialP : Bool
  parent : Option Nat
  hasMinibuf : Bool
  minibufOnly : Bool
  minibufWindow : Option Nat
  rootWindow : Nat
  leftPos : Int
  topPos : Int
  garbaged : Bool
  bufferPredicate : LVal
  bufferList : LVal
  buriedBufferList : LVal
  paramAlist : List (PProp × LVal)

/-- The registry: Vframe_list (live frames, in list order) plus an
observational log of the order in which frames are unregistered by
delete_frame. -/
structure EState where
  frames : List EFrame
  log : List Nat

/-- External collaborators of the lifecycle/parameter operations: window
liveness, minibuffer-window-ness and owning frame (window.c state), the
terminal's top frame, daemon mode, and the buffer-liveness filtering of
buffer lists (buffer.c). -/
structure EEnv where
  winLive : Nat → Bool
  winMini : Nat → Bool
  winFrame : Nat → Nat
  ttyTopFrame : Option Nat
  daemon : Bool
  filterBuffers : LVal → LVal

/-- Look up a live frame by id (FRAME_LIVE_P f is modelled as membership
in the registry). -/
def getFrame (st : EState) (i : Nat) : Option EFrame :=
  st.frames.find? (fun fr => fr.id == i)

/-- FRAME_LIVE_P. -/
def frameLive (st : EState) (i : Nat) : Bool := (getFrame st i).isSome

/-- Fassq: first entry of the alist with the given key. -/
def assq (prop : PProp) : List (PProp × LVal) → Option (PProp × LVal)
  | [] => none
  | pv :: rest => if pv.1 = prop then some pv else assq prop rest

/-- Fcdr (Fassq prop alist): the stored value, nil when absent. -/
def assqCdr (prop : PProp) (alist : List (PProp × LVal)) : LVal :=
  match assq prop alist with
  | some pv => pv.2
  | none => .nil

/-- get_frame_param (frame.c:168-172) over the registry. -/
def getFrameParamSt (st : EState) (i : Nat) (prop : PProp) : LVal :=
  match getFrame st i with
  | some fr => assqCdr prop fr.paramAlist
  | none => .nil

/-- Apply a function to the frame with the given id. -/
def updateFrame (st : EState) (i : Nat) (g : EFrame → EFrame) : EState :=
  { st with frames := st.frames.map (fun fr => if fr.id = i then g fr else fr) }

/-- FRAME_PARENT_FRAME as a query on the registry. -/
def parentOf (st : EState) (i : Nat) : Option Nat :=
  match getFrame st i with
  | some fr => fr.parent
  | none => none

/-- root_frame (frame.c:2133-2139): follow the parent chain until a frame
with no parent.  The fuel argument makes the C while-loop total; on an
acyclic registry the chain length is bounded by the number of frames. -/
def rootFrameFuel (st : EState) : Nat → Nat → Nat
  | 0, i => i
  | fuel + 1, i =>
    match parentOf st i with
    | some p => rootFrameFuel st fuel p
    | none => i

/-- root_frame with the registry-size fuel bound. -/
def rootFrame (st : EState) (i : Nat) : Nat :=
  rootFrameFuel st st.frames.length i

/-- The parent-chain walk shared by frame_ancestor_p (frame.c:2083-2097)
and frame_subsumes_p (frame.c:2101-2113): does the chain starting at the
given frame (inclusive) contain af? -/
def chainHits (st : EState) : Nat → Nat → Option Nat → Bool
  | _, _, none => false
  | 0, _, some _ => false
  | fuel + 1, af, some df => if df = af then true else chainHits st fuel af (parentOf st df)

/-- frame_ancestor_p: af is a strict ancestor of df. -/
def frameAncestorP (st : EState) (af df : Nat) : Bool :=
  chainHits st (st.frames.length + 1) af (parentOf st df)

/-- frame_subsumes_p: af equals df or is an ancestor of df. -/
def frameSubsumesP (st : EState) (af df : Nat) : Bool :=
  chainHits st (st.frames.length + 1) af (some df)

/-- The errors store_frame_param can signal. -/
inductive PErr where
  | invalidMinibufferWindow
  | minibufferOnlyFrame
  | ownMinibufferFrame
  | differentRoots
  | cantChangeMinibuffer
  | invalidParam (prop : PProp)
  | circular (prop : PProp)
  | rerootSurrogate
  | ttyTopChild
  | ttyRootNoMinibuffer
deriving DecidableEq, Repr

/-- RANGED_FIXNUMP (1, val, INT_MAX). -/
def rangedFixnum1IntMax (v : LVal) : Bool :=
  match v with
  | .num n => decide (1 ≤ n ∧ n ≤ 2147483647)
  | _ => false

/-- The cycle walk of the parent-frame / delete-before validation
(frame.c:3758-3764): starting from VAL, follow the stored parameter chain
through live frames; true when it reaches the frame being modified.  The
C loop diverges on a pre-existing foreign cycle; the fuel (one more than
the registry size in all uses) makes it total. -/
def chainReaches (st : EState) : Nat → PProp → LVal → Nat → Bool
  | 0, _, _, _ => false
  | fuel + 1, prop, v, fid =>
    match v with
    | .frm j =>
      if frameLive st j then
        if j = fid then true
        else chainReaches st fuel prop (getFrameParamSt st j prop) fid
      else false
    | _ => false

/-- Fsetcdr on the first matching alist entry. -/
def alistSetcdr (prop : PProp) (val : LVal) :
    List (PProp × LVal) → List (PProp × LVal)
  | [] => []
  | pv :: rest =>
    if pv.1 = prop then (prop, val) :: rest else pv :: alistSetcdr prop val rest

/-- The alist update of store_frame_param (frame.c:3854-3859): prepend a
fresh cell when the property is absent, otherwise Fsetcdr the existing
cell. -/
def alistStore (prop : PProp) (val : LVal)
    (alist : List (PProp × LVal)) : List (PProp × LVal) :=
  match assq prop alist with
  | none => (prop, val) :: alist
  | some _ => alistSetcdr prop val alist

/-- store_frame_param (frame.c:3688-3876).  Returns the registry at the
moment the function returns or signals, together with the error, if any
(a C `error` is a non-local exit that leaves whatever had been mutated so
far in place).  The phases: the `minibuffer` validation/handling, the
parent-frame/delete-before cycle check, the buffer-list special stores
(which return early), the scroll-bar-width/height range guard, the tty
parent-frame re-rooting checks and effects, the alist write, and the
post-write handlers.  The tty re-rooting geometry pass
(adjust_frame_size, frame.c:3833-3835) belongs to the geometry component
and only its left/top reset is visible in this record; the
tty_color_mode previous-frame reset (frame.c:3849-3852) touches terminal
state; the non-window menu-bar/tab-bar/name handlers
(frame.c:3867-3875) drive the geometry engine and terminal naming and
are outside this registry model. -/
def storeFrameParam (env : EEnv) (st : EState) (fid : Nat) (prop : PProp)
    (val : LVal) : EState × Option PErr :=
  match getFrame st fid with
  | none => (st, none)
  | some f =>
    let pre : Except PErr (EState × LVal) :=
      if prop = .minibuffer then
        match val with
        | .win w =>
          if ¬env.winLive w ∨ ¬env.winMini w then .error .invalidMinibufferWindow
          else if f.minibufOnly then
            if f.minibufWindow = some w then .ok (st, .only)
            else .error .minibufferOnlyFrame
          else if f.hasMinibuf then
            if f.minibufWindow = some w then .ok (st, .t)
            else .error .ownMinibufferFrame
          else if f.tty ∧ rootFrame st (env.winFrame w) ≠ rootFrame st fid then
            .error .differentRoots
          else
            .ok (updateFrame st fid (fun fr => { fr with minibufWindow := some w }),
                 val)
        | _ =>
          let oldVal := assqCdr .minibuffer f.paramAlist
          if oldVal ≠ .nil then
            match oldVal, val with
            | .win w, .nil => .ok (st, .win w)
            | _, _ =>
              if oldVal ≠ val then .error .cantChangeMinibuffer else .ok (st, val)
          else .ok (st, val)
      else if prop = .parentFrame ∨ prop = .deleteBefore then
        let oldval := assqCdr prop f.paramAlist
        if oldval ≠ val ∧ val ≠ .nil then
          match val with
          | .frm j =>
            if ¬frameLive st j then .error (.invalidParam prop)
            else if chainReaches st (st.frames.length + 1) prop val fid then
              .error (.circular prop)
            else .ok (st, val)
          | _ => .error (.invalidParam prop)
        else .ok (st, val)
      else .ok (st, val)
    match pre with
    | .error e => (st, some e)
    | .ok (st1, val1) =>
      if prop = .bufferList then
        (updateFrame st1 fid
          (fun fr => { fr with bufferList := env.filterBuffers val1 }), none)
      else if prop = .buriedBufferList then
        (updateFrame st1 fid
          (fun fr => { fr with buriedBufferList := env.filterBuffers val1 }), none)
      else
        let val2 :=
          if (prop = .scrollBarWidth ∨ prop = .scrollBarHeight)
             ∧ val1 ≠ .nil ∧ ¬rangedFixnum1IntMax val1 then
            assqCdr prop f.paramAlist
          else val1
        let ttyStep : Except PErr EState :=
          if f.tty ∧ prop = .parentFrame then
            let newParent : Option Nat :=
              match val2 with
              | .frm j => some j
              | _ => none
            -- temporarily install VAL and check that every frame still
            -- agrees with its surrogate minibuffer frame on the root
            let stTmp := updateFrame st1 fid (fun fr => { fr with parent := newParent })
            if st1.frames.any (fun f1 =>
                 match f1.minibufWindow with
                 | some w =>
                   decide (rootFrame stTmp f1.id ≠ rootFrame stTmp (env.winFrame w))
                 | none => false) then
              .error .rerootSurrogate
            else if env.ttyTopFrame = some fid ∧ val2 ≠ .nil then
              .error .ttyTopChild
            else if val2 = .nil then
              let minibufAncestor : Bool :=
                match f.minibufWindow with
                | some w => frameAncestorP st1 fid (env.winFrame w)
                | none => false
              if ¬f.hasMinibuf ∧ ¬minibufAncestor then
                .error .ttyRootNoMinibuffer
              else
                -- expand to full terminal size (geometry pass, external
                -- to this record) and move to the top-left corner
                .ok (updateFrame st1 fid (fun fr => { fr with leftPos := 0, topPos := 0 }))
            else .ok st1
          else .ok st1
        match ttyStep with
        | .error e => (st1, some e)
        | .ok st2 =>
          let st3 :=
            if f.tty ∧ prop = .parentFrame then
              let newParent : Option Nat :=
                match val2 with
                | .frm j => some j
                | _ => none
              let oldRoot := rootFrame st2 fid
              let st2a := updateFrame st2 oldRoot (fun fr => { fr with garbaged := true })
              let st2b := updateFrame st2a fid (fun fr => { fr with parent := newParent })
              let newRoot := rootFrame st2b fid
              updateFrame st2b newRoot (fun fr => { fr with garbaged := true })
            else st2
          let st4 := updateFrame st3 fid
            (fun fr => { fr with paramAlist := alistStore prop val2 fr.paramAlist })
          let st5 :=
            if prop = .bufferPredicate then
              updateFrame st4 fid (fun fr => { fr with bufferPredicate := val2 })
            else st4
          (st5, none)

/-- Walking from a frame with no parent goes nowhere, whatever the fuel. -/
theorem rootFrameFuel_parent_none (st : EState) (n i : Nat)
    (h : parentOf st i = none) : rootFrameFuel st n i = i := by
  cases n with
  | zero => rfl
  | succ m => simp [rootFrameFuel, h]

/-- The frame-update map changes neither which frame find? locates nor
(for other ids) the located frame, because the update preserves ids. -/
theorem getFrame_updateFrame_self (st : EState) (i : Nat) (g : EFrame → EFrame)
    (hid : ∀ fr, (g fr).id = fr.id) :
    getFrame (updateFrame st i g) i = (getFrame st i).map g := by
  unfold getFrame updateFrame
  rw [List.find?_map]
  have hpred : ((fun fr : EFrame => fr.id == i)
      ∘ fun fr => if fr.id = i then g fr else fr) = fun fr => fr.id == i := by
    funext fr
    by_cases h : fr.id = i <;> simp [h, hid]
  rw [hpred]
  cases hfind : st.frames.find? (fun fr => fr.id == i) with
  | none => rfl
  | some fr =>
    have hfr : fr.id = i := by
      have := List.find?_some hfind
      simpa using this
    simp [hfr]

/-- Updating one frame leaves lookups of other ids untouched. -/
theorem getFrame_updateFrame_other (st : EState) (i j : Nat) (g : EFrame → EFrame)
    (hid : ∀ fr, (g fr).id = fr.id) (hne : j ≠ i) :
    getFrame (updateFrame st i g) j = getFrame st j := by
  unfold getFrame updateFrame
  rw [List.find?_map]
  have hpred : ((fun fr : EFrame => fr.id == j)
      ∘ fun fr => if fr.id = i then g fr else fr) = fun fr => fr.id == j := by
    funext fr
    by_cases h : fr.id = i <;> simp [h, hid]
  rw [hpred]
  cases hfind : st.frames.find? (fun fr => fr.id == j) with
  | none => rfl
  | some fr =>
    have hfr : fr.id = j := by
      have := List.find?_some hfind
      simpa using this
    have hni : ¬fr.id = i := by rw [hfr]; exact hne
    simp [hni]

/-- assq only returns entries carrying the requested key. -/
theorem assq_some_fst (prop : PProp) (al : List (PProp × LVal))
    (pv : PProp × LVal) (h : assq prop al = some pv) : pv.1 = prop := by
  induction al with
  | nil => simp [assq] at h
  | cons qv rest ih =>
    by_cases hq : qv.1 = prop
    · rw [assq, if_pos hq] at h
      injection h with h2
      rw [← h2]; exact hq
    · rw [assq, if_neg hq] at h
      exact ih h

/-- assqCdr through a cons cell. -/
theorem assqCdr_cons (p q : PProp) (v : LVal) (al : List (PProp × LVal)) :
    assqCdr p ((q, v) :: al) = if q = p then v else assqCdr p al := by
  by_cases h : q = p <;> simp [assqCdr, assq, h]

/-- Replacing an alist entry by the value it already holds is the
identity. -/
theorem alistSetcdr_self (prop : PProp) (al : List (PProp × LVal)) (v : LVal)
    (h : assq prop al = some (prop, v)) : alistSetcdr prop v al = al := by
  induction al with
  | nil => rfl
  | cons pv rest ih =>
    by_cases hp : pv.1 = prop
    · rw [assq, if_pos hp] at h
      injection h with h2
      rw [alistSetcdr, if_pos hp, h2]
    · rw [assq, if_neg hp] at h
      rw [alistSetcdr, if_neg hp, ih h]

/-- Storing back the value a property already resolves to does not change
what any property resolves to. -/
theorem assqCdr_alistStore_old (prop p : PProp) (al : List (PProp × LVal)) :
    assqCdr p (alistStore prop (assqCdr prop al) al) = assqCdr p al := by
  unfold alistStore
  cases hq : assq prop al with
  | none =>
    rw [assqCdr_cons]
    by_cases hp : prop = p
    · subst hp; rw [if_pos rfl]
    · rw [if_neg hp]
  | some pv =>
    have hfst : pv.1 = prop := assq_some_fst prop al pv hq
    have hv : assqCdr prop al = pv.2 := by simp [assqCdr, hq]
    have hpv : pv = (prop, pv.2) := by rw [← hfst]
    rw [hv, alistSetcdr_self prop al pv.2 (by rw [hq, hpv])]

/-- Builder for a plain live graphical root frame with its own minibuffer
window (window id 100+i) used in the registry scenarios. -/
def mkEFrame (i : Nat) (par : Option Nat) : EFrame :=
  { id := i, visible := true, iconified := false, tooltip := false,
    windowP := true, tty := false, initialP := false, parent := par,
    hasMinibuf := true, minibufOnly := false, minibufWindow := some (100 + i),
    rootWindow := 200 + i, leftPos := 0, topPos := 0, garbaged := false,
    bufferPredicate := .nil, bufferList := .nil, buriedBufferList := .nil,
    paramAlist := [] }

/-- Environment for the registry scenarios: every window is a live
minibuffer window, window 100+i belongs to frame i, no tty top frame, not
a daemon. -/
def eEnvA : EEnv :=
  { winLive := fun _ => true, winMini := fun _ => true,
    winFrame := fun w => w - 100, ttyTopFrame := none, daemon := false,
    filterBuffers := fun v => v }

/-- C9: root-frame resolution is idempotent.  When the parent-chain walk
from f has reached a frame with no parent (the definition of a root: the
hypothesis states the resolved frame is parentless, which the bounded
walk guarantees on any acyclic registry), resolving again from that root
returns the root itself. -/
theorem c9_root_frame_idempotent (st : EState) (i : Nat)
    (hroot : parentOf st (rootFrame st i) = none) :
    rootFrame st (rootFrame st i) = rootFrame st i :=
  rootFrameFuel_parent_none st st.frames.length (rootFrame st i) hroot

/-- Registry fixture for C9: a three-frame parent chain 2 -> 1 -> 0. -/
def eState9 : EState :=
  { frames := [mkEFrame 0 none, mkEFrame 1 (some 0), mkEFrame 2 (some 1)],
    log := [] }

/-- C9 witness: the root of frame 2 is frame 0 and resolving twice agrees
with resolving once. -/
theorem c9_root_frame_idempotent_witness :
    rootFrame eState9 (rootFrame eState9 2) = rootFrame eState9 2 :=
  c9_root_frame_idempotent eState9 2 (by decide)

/-- C5: a parent-frame (or delete-before) parameter write whose value
starts a chain that reaches the frame itself - i.e. would make the frame
its own ancestor - is rejected with the circularity error, and the
registry (hence every frame's stored chain) is returned unchanged. -/
theorem c5_circular_chain_rejected (env : EEnv) (st : EState) (fid : Nat)
    (prop : PProp) (val : LVal) (f : EFrame) (j : Nat)
    (hf : getFrame st fid = some f)
    (hprop : prop = .parentFrame ∨ prop = .deleteBefore)
    (hold : assqCdr prop f.paramAlist ≠ val)
    (hval : val = .frm j) (hlive : frameLive st j = true)
    (hreach : chainReaches st (st.frames.length + 1) prop val fid = true) :
    storeFrameParam env st fid prop val = (st, some (.circular prop)) := by
  subst hval
  rcases hprop with rfl | rfl <;>
    simp [storeFrameParam, hf, hold, hlive, hreach]

/-- Frame 1 of the C5 fixture: its parent-frame parameter already points
at frame 0. -/
def eFrame5b : EFrame :=
  { mkEFrame 1 none with paramAlist := [(.parentFrame, .frm 0)] }

/-- Registry fixture for C5. -/
def eState5 : EState := { frames := [mkEFrame 0 none, eFrame5b], log := [] }

/-- C5 witness: setting frame 0's parent-frame parameter to frame 1
closes a cycle and is rejected with the circularity error, registry
unchanged. -/
theorem c5_circular_chain_rejected_witness :
    storeFrameParam eEnvA eState5 0 .parentFrame (.frm 1)
    = (eState5, some (.circular .parentFrame)) :=
  c5_circular_chain_rejected eEnvA eState5 0 .parentFrame (.frm 1)
    (mkEFrame 0 none) 1 rfl (Or.inl rfl) (by decide) rfl (by decide) (by decide)

/-- C6: on a text-terminal frame that neither owns its minibuffer nor is
minibuffer-only, setting the `minibuffer` parameter to a live minibuffer
window whose owning frame has a different root frame is rejected with the
roots-must-agree error, and the registry (frame fields and parameter
alist included) is returned unchanged. -/
theorem c6_minibuffer_root_mismatch_rejected (env : EEnv) (st : EState)
    (fid w : Nat) (f : EFrame)
    (hf : getFrame st fid = some f)
    (hlive : env.winLive w = true) (hmini : env.winMini w = true)
    (hnotonly : f.minibufOnly = false) (hnothas : f.hasMinibuf = false)
    (htty : f.tty = true)
    (hroots : rootFrame st (env.winFrame w) ≠ rootFrame st fid) :
    storeFrameParam env st fid .minibuffer (.win w) = (st, some .differentRoots) := by
  simp [storeFrameParam, hf, hlive, hmini, hnotonly, hnothas, htty, hroots]

/-- Tty root frame 0 of the C6 fixture, owning minibuffer window 100. -/
def eFrame6m : EFrame := { mkEFrame 0 none with tty := true }

/-- Tty root frame 1 of the C6 fixture: minibuffer-less, currently using
frame 0's minibuffer window 100. -/
def eFrame6f : EFrame :=
  { mkEFrame 1 none with tty := true, hasMinibuf := false,
                         minibufWindow := some 100 }

/-- Registry fixture for C6: two distinct tty root frames. -/
def eState6 : EState := { frames := [eFrame6m, eFrame6f], log := [] }

/-- C6 witness: frame 1 is offered frame 0's minibuffer window 100, but
their roots (0 and 1) differ, so the write is rejected and the registry
returned unchanged. -/
theorem c6_minibuffer_root_mismatch_rejected_witness :
    storeFrameParam eEnvA eState6 1 .minibuffer (.win 100)
    = (eState6, some .differentRoots) :=
  c6_minibuffer_root_mismatch_rejected eEnvA eState6 1 100 eFrame6f
    rfl rfl rfl rfl rfl rfl (by decide)

/-- C10: storing a non-nil scroll-bar-width/height value that is not a
fixnum in [1, INT_MAX] signals no error; the supplied value is silently
replaced by the parameter's previous value, so every parameter of the
frame resolves as before and all other frames are untouched. -/
theorem c10_scroll_bar_out_of_range_kept (env : EEnv) (st : EState)
    (fid : Nat) (prop : PProp) (val : LVal) (f : EFrame)
    (hf : getFrame st fid = some f)
    (hprop : prop = .scrollBarWidth ∨ prop = .scrollBarHeight)
    (hnn : val ≠ .nil)
    (hnr : rangedFixnum1IntMax val = false) :
    (storeFrameParam env st fid prop val).2 = none
    ∧ (∀ p, getFrameParamSt (storeFrameParam env st fid prop val).1 fid p
            = getFrameParamSt st fid p)
    ∧ (∀ j, j ≠ fid →
        getFrame (storeFrameParam env st fid prop val).1 j = getFrame st j) := by
  have hres : storeFrameParam env st fid prop val
      = (updateFrame st fid
          (fun fr => { fr with
            paramAlist := alistStore prop (assqCdr prop f.paramAlist) fr.paramAlist }),
         none) := by
    rcases hprop with rfl | rfl <;> simp [storeFrameParam, hf, hnn, hnr]
  rw [hres]
  have hid : ∀ fr : EFrame,
      (({ fr with paramAlist := alistStore prop (assqCdr prop f.paramAlist)
                    fr.paramAlist } : EFrame)).id = fr.id := fun _ => rfl
  refine ⟨rfl, fun p => ?_, fun j hj => getFrame_updateFrame_other st fid j _ hid hj⟩
  unfold getFrameParamSt
  rw [getFrame_updateFrame_self st fid _ hid, hf]
  simp [assqCdr_alistStore_old]

/-- Frame 0 of the C10 fixture: scroll-bar-width currently 14. -/
def eFrame10 : EFrame :=
  { mkEFrame 0 none with paramAlist := [(.scrollBarWidth, .num 14)] }

/-- Registry fixture for C10. -/
def eState10 : EState := { frames := [eFrame10, mkEFrame 1 none], log := [] }

/-- C10 witness: writing the out-of-range scroll-bar-width 0 to frame 0
signals nothing, keeps every parameter as it was and leaves the other
frame alone. -/
theorem c10_scroll_bar_out_of_range_kept_witness :
    (storeFrameParam eEnvA eState10 0 .scrollBarWidth (.num 0)).2 = none
    ∧ (∀ p, getFrameParamSt
        (storeFrameParam eEnvA eState10 0 .scrollBarWidth (.num 0)).1 0 p
        = getFrameParamSt eState10 0 p)
    ∧ (∀ j, j ≠ 0 →
        getFrame (storeFrameParam eEnvA eState10 0 .scrollBarWidth (.num 0)).1 j
        = getFrame eState10 j) :=
  c10_scroll_bar_out_of_range_kept eEnvA eState10 0 .scrollBarWidth (.num 0)
    eFrame10 rfl (Or.inl rfl) (by decide) (by decide)

/-- The FORCE argument of delete_frame: nil, t, or the internal `noelisp`
marker used by terminal teardown (Fdelete_frame, frame.c:2978, only ever
passes nil or t). -/
inductive Force where
  | fnil
  | ft
  | noelisp
deriving DecidableEq, Repr

/-- The errors delete_frame can signal, plus the fuel marker that makes
the bounded recursion total (never reached in the verified scenarios). -/
inductive DErr where
  | soleVisibleOrIconified
  | onlyFrame
  | daemonInitialFrame
  | surrogateTty
  | surrogateMinibuffer
  | storeErr (e : PErr)
  | fuelExhausted
deriving DecidableEq, Repr

/-- other_frames (frame.c:2368-2461): is there another frame that counts?
A counting frame is live, not a tooltip, not a child frame, has no
delete-before dependency (unless called for invisibility) and is visible
or iconified - or, for deletions, FORCE is set or it is a graphical frame
while F is not.  (The minibuffer_window local computed at frame.c:2372 is
unused by the loop.) -/
def otherFrames (env : EEnv) (st : EState) (f : EFrame)
    (invisible force : Bool) : Bool :=
  st.frames.any (fun f1 => decide (
    f1.id ≠ f.id
    ∧ ¬f1.tooltip
    ∧ f1.parent = none
    ∧ (invisible ∨ assqCdr .deleteBefore f1.paramAlist = .nil)
    ∧ (f1.visible ∨ f1.iconified
       ∨ (¬invisible ∧ (force ∨ (f1.windowP ∧ ¬f.windowP))))))

/-- The soft-deletion loop of delete_frame (frame.c:2519-2548) over a
snapshot of registry ids: every frame whose parent is F is recursively
deleted (non-forced), except that a child owning F's minibuffer window is
unparented instead (via the parameter store, standing for
Fmodify_frame_parameters) and remembered as the minibuffer child frame;
when F itself is not a child frame, frames with a `delete-before`
parameter naming F are deleted too.  DEL is the recursive delete at the
remaining fuel; errors abort the whole deletion, keeping the mutations
made so far. -/
def cascadeSteps (env : EEnv) (del : EState → Nat → EState × Option DErr) :
    List Nat → EState → Nat → EFrame → Bool → Option Nat →
    (EState × Option Nat) × Option DErr
  | [], st, _, _, _, childm => ((st, childm), none)
  | i :: rest, st, fid, fOrig, nochild, childm =>
    match getFrame st i with
    | none => cascadeSteps env del rest st fid fOrig nochild childm
    | some f1 =>
      if i = fid ∨ f1.tooltip then
        cascadeSteps env del rest st fid fOrig nochild childm
      else if f1.parent = some fid then
        if f1.hasMinibuf ∧ ¬fOrig.hasMinibuf
           ∧ fOrig.minibufWindow = f1.minibufWindow then
          match storeFrameParam env st i .parentFrame .nil with
          | (st1, some e) => ((st1, some i), some (.storeErr e))
          | (st1, none) =>
            -- the full parameter pass also clears the parent field itself
            let st2 := updateFrame st1 i (fun fr => { fr with parent := none })
            cascadeSteps env del rest st2 fid fOrig nochild (some i)
        else
          match del st i with
          | (st1, some e) => ((st1, childm), some e)
          | (st1, none) => cascadeSteps env del rest st1 fid fOrig nochild childm
      else if nochild ∧ assqCdr .deleteBefore f1.paramAlist = .frm fid then
        match del st i with
        | (st1, some e) => ((st1, childm), some e)
        | (st1, none) => cascadeSteps env del rest st1 fid fOrig nochild childm
      else cascadeSteps env del rest st fid fOrig nochild childm

/-- The surrogate-minibuffer loop of delete_frame (frame.c:2554-2572),
reached only when F has its own minibuffer: any other frame whose
minibuffer window lives on F forces either a recursive unconditional
deletion (FORCE = noelisp) or the surrogate-minibuffer error. -/
def surrogateSteps (env : EEnv)
    (del : EState → Nat → Force → EState × Option DErr) :
    List Nat → EState → Nat → Force → EState × Option DErr
  | [], st, _, _ => (st, none)
  | i :: rest, st, fid, force =>
    match getFrame st i with
    | none => surrogateSteps env del rest st fid force
    | some f1 =>
      if i = fid then surrogateSteps env del rest st fid force
      else
        match f1.minibufWindow with
        | some w =>
          if env.winFrame w = fid then
            if force = .noelisp then
              match del st i .noelisp with
              | (st1, some e) => (st1, some e)
              | (st1, none) => surrogateSteps env del rest st1 fid force
            else (st, some .surrogateMinibuffer)
          else surrogateSteps env del rest st fid force
        | none => surrogateSteps env del rest st fid force

/-- The minibuffer-child postlude of delete_frame (frame.c:2918-2955): a
child frame that was unparented to save the shared minibuffer window is
either made visible (when some other frame still uses its root window as
minibuffer) or recursively deleted (when FORCE was noelisp or other
frames remain). -/
def minibufferChildCleanup (env : EEnv)
    (del : EState → Nat → Force → EState × Option DErr)
    (st : EState) (childm : Option Nat) (force : Force) :
    EState × Option DErr :=
  match childm with
  | none => (st, none)
  | some cid =>
    match getFrame st cid with
    | none => (st, none)
    | some c =>
      if st.frames.any (fun f2 => decide (f2.id ≠ cid ∧ ¬f2.tooltip
           ∧ f2.minibufWindow = some c.rootWindow)) then
        (if ¬c.visible ∧ ¬c.iconified then
           updateFrame st cid (fun fr => { fr with visible := true })
         else st, none)
      else if force = .noelisp ∨ otherFrames env st c false (force ≠ .fnil) then
        del st cid .noelisp
      else (st, none)

/-- delete_frame (frame.c:2470-2958), bounded by fuel (the C recursion
terminates because each recursive call deletes a frame).  Validation
order as in the source: dead frames are a silent no-op; the
other-frames, daemon-initial and (tty, non-forced) surrogate-root checks
signal before any mutation; then the soft-deletion cascade, the
surrogate-minibuffer loop, the hook point (delete-frame-functions is
modelled as absent, i.e. Vrun_hooks nil), the post-hook re-validation,
and the commit: the frame is removed from Vframe_list and its id
appended to the unregistration log.  The selection switch, echo-area and
minibuffer relocation, X selection handling, glyph/window-tree release,
terminal reference counting and kboard bookkeeping of the commit phase
act on state outside this registry model.  Platform drag-and-drop checks
(HAVE_X_WINDOWS/HAVE_HAIKU) are not part of the modelled build. -/
def deleteFrameFuel (env : EEnv) :
    Nat → EState → Nat → Force → EState × Option DErr
  | 0, st, _, _ => (st, some .fuelExhausted)
  | fuel + 1, st, fid, force =>
    match getFrame st fid with
    | none => (st, none)
    | some f =>
      if force ≠ .noelisp ∧ ¬otherFrames env st f false (force ≠ .fnil) then
        (st, some (if force = .fnil then .soleVisibleOrIconified else .onlyFrame))
      else if env.daemon ∧ f.initialP ∧ force = .fnil then
        (st, some .daemonInitialFrame)
      else if f.tty ∧ force = .fnil
              ∧ st.frames.any (fun f1 =>
                  match f1.minibufWindow with
                  | some w => frameSubsumesP st fid (env.winFrame w)
                              && !frameSubsumesP st fid f1.id
                  | none => false) then
        (st, some .surrogateTty)
      else
        match cascadeSteps env
            (fun st1 i => deleteFrameFuel env fuel st1 i .fnil)
            (st.frames.map (fun fr => fr.id)) st fid f
            (decide (f.parent = none)) none with
        | ((st1, _), some e) => (st1, some e)
        | ((st1, childm), none) =>
          let step5 :=
            if f.hasMinibuf then
              surrogateSteps env (fun st2 i fo => deleteFrameFuel env fuel st2 i fo)
                (st1.frames.map (fun fr => fr.id)) st1 fid force
            else (st1, none)
          match step5 with
          | (st2, some e) => (st2, some e)
          | (st2, none) =>
            match getFrame st2 fid with
            | none => (st2, none)
            | some f2 =>
              if force ≠ .noelisp ∧ ¬otherFrames env st2 f2 false (force ≠ .fnil) then
                (st2, some (if force = .fnil then .soleVisibleOrIconified
                            else .onlyFrame))
              else
                let st3 : EState :=
                  { frames := st2.frames.filter (fun fr => decide (fr.id ≠ fid)),
                    log := st2.log ++ [fid] }
                minibufferChildCleanup env
                  (fun st4 i fo => deleteFrameFuel env fuel st4 i fo)
                  st3 childm force

/-- A successful frame lookup returns a member of the registry. -/
theorem getFrame_mem (st : EState) (i : Nat) (f1 : EFrame)
    (h : getFrame st i = some f1) : f1 ∈ st.frames :=
  List.mem_of_find?_eq_some h

/-- A successful frame lookup returns a frame carrying the looked-up id. -/
theorem getFrame_id (st : EState) (i : Nat) (f1 : EFrame)
    (h : getFrame st i = some f1) : f1.id = i := by
  have := List.find?_some h
  simpa using this

/-- find? commutes with a filter that keeps everything the find?
predicate accepts. -/
theorem find?_filter_of_imp {α : Type} (l : List α) (p q : α → Bool)
    (h : ∀ a ∈ l, q a = true → p a = true) :
    (l.filter p).find? q = l.find? q := by
  induction l with
  | nil => rfl
  | cons a rest ih =>
    have htail := fun b hb => h b (List.mem_cons_of_mem _ hb)
    cases hpa : p a with
    | true =>
      rw [List.filter_cons_of_pos hpa, List.find?_cons, List.find?_cons]
      cases hqa : q a with
      | true => rfl
      | false => exact ih htail
    | false =>
      have hqa : q a = false := by
        cases hq : q a with
        | false => rfl
        | true => rw [h a (List.mem_cons_self a rest) hq] at hpa; cases hpa
      rw [List.filter_cons_of_neg (by simp [hpa]), List.find?_cons, hqa, ih htail]

/-- Removing the frames with a foreign id does not change a lookup. -/
theorem getFrame_filter_ne (st : EState) (gid fid : Nat) (log2 : List Nat)
    (hne : fid ≠ gid) :
    getFrame { frames := st.frames.filter (fun fr => decide (fr.id ≠ gid)),
               log := log2 } fid = getFrame st fid := by
  unfold getFrame
  exact find?_filter_of_imp st.frames _ _ (fun a _ hq => by
    have : a.id = fid := by simpa using hq
    simp [this, hne])

/-- The soft-deletion loop is a no-op when no live frame depends on FID
through its parent field or a delete-before parameter. -/
theorem cascadeSteps_noop (env : EEnv) (del : EState → Nat → EState × Option DErr)
    (ids : List Nat) (st : EState) (fid : Nat) (fOrig : EFrame) (nochild : Bool)
    (childm : Option Nat)
    (h : ∀ f1 ∈ st.frames, f1.parent ≠ some fid
         ∧ assqCdr .deleteBefore f1.paramAlist ≠ .frm fid) :
    cascadeSteps env del ids st fid fOrig nochild childm = ((st, childm), none) := by
  induction ids with
  | nil => rfl
  | cons i rest ih =>
    rw [cascadeSteps]
    cases hg : getFrame st i with
    | none => exact ih
    | some f1 =>
      dsimp only
      have hmem := getFrame_mem st i f1 hg
      have hpar := (h f1 hmem).1
      have hdb := (h f1 hmem).2
      by_cases hif : i = fid ∨ f1.tooltip
      · rw [if_pos hif]; exact ih
      · rw [if_neg hif, if_neg (by simp [hpar]), if_neg (by simp [hdb])]
        exact ih

/-- The surrogate-minibuffer loop is a no-op when no other frame's
minibuffer window lives on FID. -/
theorem surrogateSteps_noop (env : EEnv)
    (del : EState → Nat → Force → EState × Option DErr)
    (ids : List Nat) (st : EState) (fid : Nat) (force : Force)
    (h : ∀ f1 ∈ st.frames, f1.id ≠ fid →
         ∀ w, f1.minibufWindow = some w → env.winFrame w ≠ fid) :
    surrogateSteps env del ids st fid force = (st, none) := by
  induction ids with
  | nil => rfl
  | cons i rest ih =>
    rw [surrogateSteps]
    cases hg : getFrame st i with
    | none => exact ih
    | some f1 =>
      dsimp only
      by_cases hif : i = fid
      · rw [if_pos hif]; exact ih
      · rw [if_neg hif]
        cases hw : f1.minibufWindow with
        | none => exact ih
        | some w =>
          dsimp only
          have hid := getFrame_id st i f1 hg
          have : env.winFrame w ≠ fid :=
            h f1 (getFrame_mem st i f1 hg) (by rw [hid]; exact hif) w hw
          rw [if_neg this]
          exact ih

/-- With a non-noelisp FORCE, the surrogate-minibuffer loop signals the
surrogate error as soon as it reaches the (unique triggering) dependent
frame GID, leaving the state unchanged. -/
theorem surrogateSteps_first_err (env : EEnv)
    (del : EState → Nat → Force → EState × Option DErr)
    (ids : List Nat) (st : EState) (fid gid : Nat) (g : EFrame) (force : Force)
    (w : Nat)
    (hforce : force ≠ .noelisp)
    (hg : getFrame st gid = some g)
    (hgw : g.minibufWindow = some w) (hw : env.winFrame w = fid)
    (hgne : gid ≠ fid)
    (hmem : gid ∈ ids)
    (hpre : ∀ f1 ∈ st.frames, f1.id ≠ fid → f1.id ≠ gid →
            ∀ w', f1.minibufWindow = some w' → env.winFrame w' ≠ fid) :
    surrogateSteps env del ids st fid force = (st, some .surrogateMinibuffer) := by
  induction ids with
  | nil => cases hmem
  | cons i rest ih =>
    rw [surrogateSteps]
    by_cases hieq : i = gid
    · subst hieq
      rw [hg]
      dsimp only
      rw [if_neg hgne, hgw]
      dsimp only
      rw [if_pos hw, if_neg hforce]
    · have hmem' : gid ∈ rest := by
        cases hmem with
        | head => exact absurd rfl hieq
        | tail _ hm => exact hm
      cases hgi : getFrame st i with
      | none => exact ih hmem'
      | some f1 =>
        dsimp only
        by_cases hif : i = fid
        · rw [if_pos hif]; exact ih hmem'
        · rw [if_neg hif]
          cases hwv : f1.minibufWindow with
          | none => exact ih hmem'
          | some w' =>
            dsimp only
            have hid := getFrame_id st i f1 hgi
            have : env.winFrame w' ≠ fid :=
              hpre f1 (getFrame_mem st i f1 hgi) (by rw [hid]; exact hif)
                (by rw [hid]; exact hieq) w' hwv
            rw [if_neg this]
            exact ih hmem'

/-- With FORCE = noelisp, the surrogate-minibuffer loop deletes the
(unique) dependent frame GID through DEL and finishes as a no-op on the
resulting state. -/
theorem surrogateSteps_noelisp_one (env : EEnv)
    (del : EState → Nat → Force → EState × Option DErr)
    (ids : List Nat) (st st1 : EState) (fid gid : Nat) (g : EFrame) (w : Nat)
    (hg : getFrame st gid = some g)
    (hgw : g.minibufWindow = some w) (hw : env.winFrame w = fid)
    (hgne : gid ≠ fid)
    (hmem : gid ∈ ids)
    (hdel : del st gid .noelisp = (st1, none))
    (hpre : ∀ f1 ∈ st.frames, f1.id ≠ fid → f1.id ≠ gid →
            ∀ w', f1.minibufWindow = some w' → env.winFrame w' ≠ fid)
    (hpost : ∀ f1 ∈ st1.frames, f1.id ≠ fid →
             ∀ w', f1.minibufWindow = some w' → env.winFrame w' ≠ fid) :
    surrogateSteps env del ids st fid .noelisp = (st1, none) := by
  induction ids with
  | nil => cases hmem
  | cons i rest ih =>
    rw [surrogateSteps]
    by_cases hieq : i = gid
    · subst hieq
      rw [hg]
      dsimp only
      rw [if_neg hgne, hgw]
      dsimp only
      rw [if_pos hw, if_pos rfl, hdel]
      exact surrogateSteps_noop env del rest st1 fid .noelisp hpost
    · have hmem' : gid ∈ rest := by
        cases hmem with
        | head => exact absurd rfl hieq
        | tail _ hm => exact hm
      cases hgi : getFrame st i with
      | none => exact ih hmem'
      | some f1 =>
        dsimp only
        by_cases hif : i = fid
        · rw [if_pos hif]; exact ih hmem'
        · rw [if_neg hif]
          cases hwv : f1.minibufWindow with
          | none => exact ih hmem'
          | some w' =>
            dsimp only
            have hid := getFrame_id st i f1 hgi
            have : env.winFrame w' ≠ fid :=
              hpre f1 (getFrame_mem st i f1 hgi) (by rw [hid]; exact hif)
                (by rw [hid]; exact hieq) w' hwv
            rw [if_neg this]
            exact ih hmem'

/-- C3: for a live frame that is the sole visible-or-iconified frame
(otherFrames fails without FORCE but succeeds with it, i.e. other live
frames exist but none qualifies) with no parent/delete-before dependents
and no surrogate-minibuffer dependents, non-forced deletion signals the
sole-visible-frame error and returns the registry unchanged, while forced
deletion (FORCE = t) succeeds, removing exactly this frame from the
registry and logging its unregistration. -/
theorem c3_delete_sole_visible_frame (env : EEnv) (st : EState) (fid : Nat)
    (f : EFrame) (fuel : Nat)
    (hf : getFrame st fid = some f)
    (hno : otherFrames env st f false false = false)
    (hyes : otherFrames env st f false true = true)
    (hdep : ∀ f1 ∈ st.frames, f1.parent ≠ some fid
            ∧ assqCdr .deleteBefore f1.paramAlist ≠ .frm fid)
    (hsur : ∀ f1 ∈ st.frames, f1.id ≠ fid →
            ∀ w, f1.minibufWindow = some w → env.winFrame w ≠ fid) :
    deleteFrameFuel env (fuel + 1) st fid .fnil
      = (st, some .soleVisibleOrIconified)
    ∧ deleteFrameFuel env (fuel + 1) st fid .ft
      = ({ frames := st.frames.filter (fun fr => decide (fr.id ≠ fid)),
           log := st.log ++ [fid] }, none) := by
  constructor
  · rw [deleteFrameFuel, hf]
    dsimp only
    rw [if_pos ⟨by decide, by simp [hno]⟩]
    rfl
  · rw [deleteFrameFuel, hf]
    dsimp only
    rw [if_neg (by simp [hyes]), if_neg (by simp), if_neg (by simp),
        cascadeSteps_noop env _ _ st fid f _ none hdep]
    dsimp only
    by_cases hmb : f.hasMinibuf
    · rw [if_pos hmb, surrogateSteps_noop env _ _ st fid .ft hsur]
      dsimp only
      rw [hf]
      dsimp only
      rw [if_neg (by simp [hyes])]
      rfl
    · rw [if_neg hmb]
      dsimp only
      rw [hf]
      dsimp only
      rw [if_neg (by simp [hyes])]
      rfl

/-- Visible frame 0 of the C3 fixture (the sole visible frame). -/
def dFrame3f : EFrame := mkEFrame 0 none

/-- Invisible frame 1 of the C3 fixture (keeps the registry non-empty so
that forced deletion is allowed at all). -/
def dFrame3g : EFrame := { mkEFrame 1 none with visible := false }

/-- Registry fixture for C3. -/
def dState3 : EState := { frames := [dFrame3f, dFrame3g], log := [] }

/-- C3 witness: deleting the sole visible frame 0 fails without FORCE and
leaves the registry unchanged; with FORCE = t it succeeds and frame 0 is
unregistered. -/
theorem c3_delete_sole_visible_frame_witness :
    deleteFrameFuel eEnvA 3 dState3 0 .fnil
      = (dState3, some .soleVisibleOrIconified)
    ∧ deleteFrameFuel eEnvA 3 dState3 0 .ft
      = ({ frames := dState3.frames.filter (fun fr => decide (fr.id ≠ 0)),
           log := dState3.log ++ [0] }, none) :=
  c3_delete_sole_visible_frame eEnvA dState3 0 dFrame3f 2 rfl
    (by decide) (by decide) (by decide) (by decide)

/-- C4 (amended): let F own its minibuffer and let G (not deleted
together with F: nothing depends on F or G through parent or
delete-before links) be the one other frame whose minibuffer window
lives on F.  Then non-forced deletion of F and deletion with FORCE = t
both signal the surrogate-minibuffer error and leave the registry
unchanged; only the internal unconditional deletion (FORCE = noelisp,
used for terminal teardown) cascades, deleting the dependent frame G -
its unregistration is logged before F's - before F itself is torn
down. -/
theorem c4_surrogate_minibuffer_delete (env : EEnv) (st : EState)
    (fid gid w : Nat) (f g : EFrame) (fuel : Nat)
    (hf : getFrame st fid = some f)
    (hg : getFrame st gid = some g)
    (hgne : gid ≠ fid)
    (hfm : f.hasMinibuf = true)
    (hgw : g.minibufWindow = some w) (hw : env.winFrame w = fid)
    (hgnm : g.hasMinibuf = false)
    (hftty : f.tty = false)
    (hdaemon : env.daemon = false)
    (hof : otherFrames env st f false false = true)
    (hof2 : otherFrames env st f false true = true)
    (hdep : ∀ f1 ∈ st.frames, f1.parent ≠ some fid
            ∧ assqCdr .deleteBefore f1.paramAlist ≠ .frm fid)
    (hdepg : ∀ f1 ∈ st.frames, f1.parent ≠ some gid
             ∧ assqCdr .deleteBefore f1.paramAlist ≠ .frm gid)
    (hsur : ∀ f1 ∈ st.frames, f1.id ≠ fid → f1.id ≠ gid →
            ∀ w', f1.minibufWindow = some w' → env.winFrame w' ≠ fid) :
    deleteFrameFuel env (fuel + 2) st fid .fnil
      = (st, some .surrogateMinibuffer)
    ∧ deleteFrameFuel env (fuel + 2) st fid .ft
      = (st, some .surrogateMinibuffer)
    ∧ deleteFrameFuel env (fuel + 2) st fid .noelisp
      = ({ frames := (st.frames.filter (fun fr => decide (fr.id ≠ gid))).filter
                       (fun fr => decide (fr.id ≠ fid)),
           log := (st.log ++ [gid]) ++ [fid] }, none) := by
  have hmemids : gid ∈ st.frames.map (fun fr => fr.id) :=
    List.mem_map.mpr ⟨g, getFrame_mem st gid g hg, getFrame_id st gid g hg⟩
  refine ⟨?_, ?_, ?_⟩
  · rw [deleteFrameFuel, hf]
    dsimp only
    rw [if_neg (by simp [hof]), if_neg (by simp [hdaemon]),
        if_neg (by simp [hftty]),
        cascadeSteps_noop env _ _ st fid f _ none hdep]
    dsimp only
    rw [if_pos hfm,
        surrogateSteps_first_err env _ _ st fid gid g .fnil w (by decide)
          hg hgw hw hgne hmemids hsur]
  · rw [deleteFrameFuel, hf]
    dsimp only
    rw [if_neg (by simp [hof2]), if_neg (by simp [hdaemon]),
        if_neg (by simp [hftty]),
        cascadeSteps_noop env _ _ st fid f _ none hdep]
    dsimp only
    rw [if_pos hfm,
        surrogateSteps_first_err env _ _ st fid gid g .ft w (by decide)
          hg hgw hw hgne hmemids hsur]
  · have hinner : deleteFrameFuel env (fuel + 1) st gid .noelisp
        = ({ frames := st.frames.filter (fun fr => decide (fr.id ≠ gid)),
             log := st.log ++ [gid] }, none) := by
      rw [deleteFrameFuel, hg]
      dsimp only
      rw [if_neg (by simp), if_neg (by simp), if_neg (by simp),
          cascadeSteps_noop env _ _ st gid g _ none hdepg]
      dsimp only
      rw [if_neg (by simp [hgnm])]
      dsimp only
      rw [hg]
      dsimp only
      rw [if_neg (by simp)]
      rfl
    have hpost : ∀ f1 ∈ (st.frames.filter (fun fr => decide (fr.id ≠ gid))),
        f1.id ≠ fid → ∀ w', f1.minibufWindow = some w' →
        env.winFrame w' ≠ fid := by
      intro f1 hmem hne w' hww
      have hm := List.mem_filter.mp hmem
      exact hsur f1 hm.1 hne (by simpa using hm.2) w' hww
    rw [deleteFrameFuel, hf]
    dsimp only
    rw [if_neg (by simp), if_neg (by simp), if_neg (by simp [hftty]),
        cascadeSteps_noop env _ _ st fid f _ none hdep]
    dsimp only
    rw [if_pos hfm,
        surrogateSteps_noelisp_one env _ _ st
          { frames := st.frames.filter (fun fr => decide (fr.id ≠ gid)),
            log := st.log ++ [gid] }
          fid gid g w hg hgw hw hgne hmemids hinner hsur hpost]
    dsimp only
    rw [getFrame_filter_ne st gid fid _ (fun h => hgne h.symm), hf]
    dsimp only
    rw [if_neg (by simp)]
    rfl

/-- Frame 0 of the C4 fixture: owns minibuffer window 100. -/
def dFrame4f : EFrame := mkEFrame 0 none

/-- Frame 1 of the C4 fixture: visible, minibuffer-less, its minibuffer
window 100 lives on frame 0. -/
def dFrame4g : EFrame :=
  { mkEFrame 1 none with hasMinibuf := false, minibufWindow := some 100 }

/-- Registry fixture for C4. -/
def dState4 : EState := { frames := [dFrame4f, dFrame4g], log := [] }

/-- C4 witness: with frame 1 depending on frame 0's minibuffer, deleting
frame 0 fails for FORCE nil and t, and the unconditional deletion removes
frame 1 first and then frame 0. -/
theorem c4_surrogate_minibuffer_delete_witness :
    deleteFrameFuel eEnvA 3 dState4 0 .fnil = (dState4, some .surrogateMinibuffer)
    ∧ deleteFrameFuel eEnvA 3 dState4 0 .ft = (dState4, some .surrogateMinibuffer)
    ∧ deleteFrameFuel eEnvA 3 dState4 0 .noelisp
      = ({ frames := (dState4.frames.filter (fun fr => decide (fr.id ≠ 1))).filter
                       (fun fr => decide (fr.id ≠ 0)),
           log := (dState4.log ++ [1]) ++ [0] }, none) :=
  c4_surrogate_minibuffer_delete eEnvA dState4 0 1 100 dFrame4f dFrame4g 1
    rfl rfl (by decide) rfl rfl (by decide) rfl rfl rfl (by decide) (by decide)
    (by decide) (by decide) (by decide)

/-- C4 counterexample to the original claim: a forced delete
(FORCE = t - the only forced form Fdelete_frame can pass, frame.c:2978)
of the surrogate-minibuffer provider frame 0 does NOT cascade: it signals
the surrogate-minibuffer error (frame.c:2570) and leaves the registry
unchanged; only the internal noelisp teardown cascades. -/
theorem c4_forced_delete_does_not_cascade_counterexample :
    deleteFrameFuel eEnvA 3 dState4 0 .ft = (dState4, some .surrogateMinibuffer)
    ∧ dState4.frames.length = 2 := by
  exact ⟨rfl, rfl⟩

end FrameSpec
